import Mathlib

/-!
Verification development for a small HTTP analytics-tracking server
(`server.py`).  The server accepts POSTed JSON payloads, normalizes them
into a batch record (session id, user id, event list), formats the batch
as a fixed-layout text block and appends it to a log file.

The embedding below models decoded JSON values, the Python dictionary and
sequence operations the handler performs (with `Except Unit` standing for
a raised Python exception), and the three pipeline stages
(normalize / format / persist) together with the HTTP dispatch of
`do_POST`.
-/

set_option linter.unusedVariables false

namespace Tracking

/-- A decoded JSON value (the result of `json.loads`).  Numbers are
modelled as integers; the payloads of interest contain no floats. -/
inductive Json where
  | null : Json
  | bool : Bool → Json
  | num : Int → Json
  | str : String → Json
  | arr : List Json → Json
  | obj : List (String × Json) → Json

/-- Key lookup in a decoded JSON object (Python dict lookup; keys in a
dict are unique, so first match suffices). -/
def lookupField : List (String × Json) → String → Option Json
  | [], _ => none
  | (k, v) :: fs, key => if k = key then some v else lookupField fs key

/-- Python truthiness of a decoded JSON value. -/
def truthy : Json → Bool
  | .null => false
  | .bool b => b
  | .num n => n != 0
  | .str s => s != ""
  | .arr xs => !xs.isEmpty
  | .obj fs => !fs.isEmpty

/-- Model of `v.get(k)`: single-argument dict `get`; returns `None` (`Json.null`)
when the key is absent, raises (`.error`) when `v` is not a dict. -/
def pyGet (v : Json) (k : String) : Except Unit Json :=
  match v with
  | .obj fs => .ok ((lookupField fs k).getD .null)
  | _ => .error ()

/-- Model of `v.get(k, d)`: dict `get` with a default; raises when `v` is not a
dict. -/
def pyGetD (v : Json) (k : String) (d : Json) : Except Unit Json :=
  match v with
  | .obj fs => .ok ((lookupField fs k).getD d)
  | _ => .error ()

/-- Boolean list-prefix test on characters. -/
def charsPrefix : List Char → List Char → Bool
  | [], _ => true
  | _ :: _, [] => false
  | a :: as, b :: bs => a == b && charsPrefix as bs

/-- Boolean list-infix test on characters. -/
def charsInfix (needle : List Char) : List Char → Bool
  | [] => charsPrefix needle []
  | c :: cs => charsPrefix needle (c :: cs) || charsInfix needle cs

/-- Substring test, modelling Python `needle in haystack` on strings. -/
def strContains (needle hay : String) : Bool :=
  charsInfix needle.data hay.data

/-- Python `k in v` for a string key `k`: key membership on dicts,
element equality on lists, substring test on strings, `TypeError`
(modelled as `.error`) on numbers, booleans and `None`. -/
def pyContains (k : String) (v : Json) : Except Unit Bool :=
  match v with
  | .obj fs => .ok (lookupField fs k).isSome
  | .arr xs => .ok (xs.any fun x => match x with | .str s => s == k | _ => false)
  | .str s => .ok (strContains k s)
  | _ => .error ()

/-- Python `v[0]`: first element of a list, first character of a string;
`IndexError` / `KeyError` / `TypeError` (all `.error`) otherwise.  A JSON
object decoded by `json.loads` has only string keys, so `v[0]` on a dict
always raises. -/
def pyIndex0 : Json → Except Unit Json
  | .arr (x :: _) => .ok x
  | .str s =>
    match s.data with
    | c :: _ => .ok (.str (String.mk [c]))
    | [] => .error ()
  | _ => .error ()

/-- Python iteration over a decoded JSON value: list elements, string
characters (as one-character strings), dict keys; `TypeError` otherwise.
`len(v)` is defined on exactly the same values and equals the length of
this list. -/
def pyIter : Json → Except Unit (List Json)
  | .arr xs => .ok xs
  | .str s => .ok (s.data.map fun c => .str (String.mk [c]))
  | .obj fs => .ok (fs.map fun kv => .str kv.1)
  | _ => .error ()

/-- Lower-case hex digit. -/
def hexDigit (n : Nat) : Char :=
  if n < 10 then Char.ofNat (48 + n) else Char.ofNat (87 + n)

/-- Two-digit hex rendering of `n % 256`. -/
def hex2 (n : Nat) : String :=
  String.mk [hexDigit (n / 16 % 16), hexDigit (n % 16)]

/-- Four-digit hex rendering. -/
def hex4 (n : Nat) : String :=
  hex2 (n / 256) ++ hex2 (n % 256)

/-- Escaping of one character inside a Python string repr with quote
character `q`. -/
def escChar (q c : Char) : String :=
  if c = '\\' then "\\\\"
  else if c = q then String.mk ['\\', q]
  else if c = '\n' then "\\n"
  else if c = '\r' then "\\r"
  else if c = '\t' then "\\t"
  else if c.toNat < 32 || c.toNat = 127 then "\\x" ++ hex2 c.toNat
  else String.mk [c]

/-- Quote character Python `repr` picks for a string: single quote,
unless the string contains a single quote and no double quote. -/
def reprQuote (s : String) : Char :=
  if s.data.contains (Char.ofNat 39) && !(s.data.contains (Char.ofNat 34)) then
    Char.ofNat 34
  else Char.ofNat 39

/-- Python `repr` of a string. -/
def pyStrRepr (s : String) : String :=
  let q := reprQuote s
  String.mk [q] ++ String.join (s.data.map (escChar q)) ++ String.mk [q]

mutual

/-- Python `repr` of a decoded JSON value. -/
def pyRepr : Json → String
  | .null => "None"
  | .bool true => "True"
  | .bool false => "False"
  | .num n => toString n
  | .str s => pyStrRepr s
  | .arr xs => "[" ++ pyReprList xs ++ "]"
  | .obj fs => "\x7b" ++ pyReprFields fs ++ "\x7d"

/-- Comma-separated reprs of list elements. -/
def pyReprList : List Json → String
  | [] => ""
  | [x] => pyRepr x
  | x :: xs => pyRepr x ++ ", " ++ pyReprList xs

/-- Comma-separated `key: value` reprs of dict items. -/
def pyReprFields : List (String × Json) → String
  | [] => ""
  | [(k, v)] => pyStrRepr k ++ ": " ++ pyRepr v
  | (k, v) :: fs => pyStrRepr k ++ ": " ++ pyRepr v ++ ", " ++ pyReprFields fs

end

/-- Python `str` of a decoded JSON value, as interpolated by an f-string:
strings appear verbatim, every other value via `repr`-like rendering. -/
def pyStr : Json → String
  | .str s => s
  | v => pyRepr v

/-- Escaping of one character in `json.dumps` output (default
`ensure_ascii=True`). -/
def jsonEscChar (c : Char) : String :=
  if c = Char.ofNat 34 then "\\\""
  else if c = '\\' then "\\\\"
  else if c = '\n' then "\\n"
  else if c = '\r' then "\\r"
  else if c = '\t' then "\\t"
  else if c.toNat = 8 then "\\b"
  else if c.toNat = 12 then "\\f"
  else if c.toNat < 32 then "\\u00" ++ hex2 c.toNat
  else if c.toNat >= 128 then "\\u" ++ hex4 c.toNat
  else String.mk [c]

/-- Rendering of a string by `json.dumps`. -/
def jsonQuote (s : String) : String :=
  "\"" ++ String.join (s.data.map jsonEscChar) ++ "\""

/-- A run of `n` spaces. -/
def spaces (n : Nat) : String :=
  String.mk (List.replicate n ' ')

mutual

/-- Model of `json.dumps(v, indent=6)` with the enclosing container indented at
column `cur`. -/
def dumpsInd (cur : Nat) : Json → String
  | .null => "null"
  | .bool true => "true"
  | .bool false => "false"
  | .num n => toString n
  | .str s => jsonQuote s
  | .arr [] => "[]"
  | .arr (x :: xs) =>
    "[\n" ++ dumpsItems (cur + 6) (x :: xs) ++ "\n" ++ spaces cur ++ "]"
  | .obj [] => "\x7b\x7d"
  | .obj (f :: fs) =>
    "\x7b\n" ++ dumpsFields (cur + 6) (f :: fs) ++ "\n" ++ spaces cur ++ "\x7d"

/-- Array items of `json.dumps(·, indent=6)`, one per line at column
`ind`, separated by `",\n"`. -/
def dumpsItems (ind : Nat) : List Json → String
  | [] => ""
  | [x] => spaces ind ++ dumpsInd ind x
  | x :: xs => spaces ind ++ dumpsInd ind x ++ ",\n" ++ dumpsItems ind xs

/-- Object items of `json.dumps(·, indent=6)`. -/
def dumpsFields (ind : Nat) : List (String × Json) → String
  | [] => ""
  | [(k, v)] => spaces ind ++ jsonQuote k ++ ": " ++ dumpsInd ind v
  | (k, v) :: fs =>
    spaces ind ++ jsonQuote k ++ ": " ++ dumpsInd ind v ++ ",\n" ++ dumpsFields ind fs

end

/-- Model of `json.dumps(v, indent=6)` as called by the formatter. -/
def jsonDumps6 (v : Json) : String := dumpsInd 0 v

/-- The session id / user id / events triple the normalizer derives from
a decoded payload (lines 25-38 of `server.py`).  `events` keeps the raw
payload value of the `events` field, which the code uses as-is. -/
structure NormOut where
  sessionId : Json
  userId : Json
  events : Json

/-- The batch-submission branch of the normalizer (lines 27-29):
the conditional `get` of `sessionId` on `events[0]` when `events` is truthy, else the string `unknown`, and
likewise for `user_id`. -/
def batchSubmission (events : Json) : Except Unit NormOut :=
  if truthy events then do
    let first ← pyIndex0 events
    let sid ← pyGet first "sessionId"
    let uid ← pyGet first "userId"
    pure ⟨sid, uid, events⟩
  else pure ⟨.str "unknown", .str "unknown", events⟩

/-- The normalization step of `do_POST` (lines 25-38 of `server.py`),
applied to the decoded JSON payload.  The three-way branch — `events`
present, else `type` present, else fallback — dispatches on Python `in`,
and every dict operation raises on a non-dict operand. -/
def normalize (data : Json) : Except Unit NormOut := do
  if (← pyContains "events" data) then
    let events ← pyGetD data "events" (.arr [])
    if truthy events then
      let first ← pyIndex0 events
      let sid ← pyGet first "sessionId"
      let uid ← pyGet first "userId"
      pure ⟨sid, uid, events⟩
    else
      pure ⟨.str "unknown", .str "unknown", events⟩
  else if (← pyContains "type" data) then
    pure ⟨.str "test_session", .str "test_user", .arr [data]⟩
  else
    let sid ← pyGetD data "sessionId" (.str "unknown")
    let uid ← pyGetD data "userId" (.str "unknown")
    pure ⟨sid, uid, .arr [data]⟩

/-- The log-entry dict built at lines 42-47 of `server.py`. -/
structure LogEntry where
  timestamp : String
  sessionId : Json
  userId : Json
  events : Json

/-- Model of `isinstance(v, dict)`. -/
def isDict : Json → Bool
  | .obj _ => true
  | _ => false

/-- Model of the expression at lines 58 and 122 of `server.py`, namely
`event.get` of `eventType` or-else `event.get` of `type` with default
`unknown`: the left operand wins only when it is truthy. -/
def eventTypeOf (e : Json) : Except Unit Json := do
  let et ← pyGet e "eventType"
  if truthy et then pure et else pyGetD e "type" (.str "unknown")

/-- Model of the expression at lines 59 and 123 of `server.py`, namely
`event.get` of `data` with the `event.get` of `message` (default the
string `no data`) as fallback; the inner `get` is evaluated first. -/
def eventDataOf (e : Json) : Except Unit Json := do
  let m ← pyGetD e "message" (.str "no data")
  pyGetD e "data" m

/-- The value interpolated on the `Data:` line (lines 133-136):
pretty-printed JSON for a dict, direct string conversion otherwise. -/
def dataStr (ed : Json) : String :=
  if isDict ed then jsonDumps6 ed else pyStr ed

/-- The lines appended for the `i`-th event in the loop at lines 121-137
of `format_log_entry`; raises when `e` does not support the dict `get`
calls. -/
def formatEvent (i : Nat) (e : Json) : Except Unit (List String) := do
  let et ← eventTypeOf e
  let ed ← eventDataOf e
  let ets ← pyGetD e "timestamp" (.str "unknown")
  let eu ← pyGetD e "url" (.str "unknown")
  pure ["EVENT_" ++ toString i ++ ":",
        "  Type: " ++ pyStr et,
        "  Timestamp: " ++ pyStr ets,
        "  URL: " ++ pyStr eu,
        "  Data: " ++ dataStr ed,
        ""]

/-- The event blocks of `format_log_entry`, numbering events from `k`
(the source enumerates from 1). -/
def eventBlocks : Nat → List Json → Except Unit (List String)
  | _, [] => .ok []
  | k, e :: es => do
    let b ← formatEvent k e
    let rest ← eventBlocks (k + 1) es
    pure (b ++ rest)

/-- The 80-character `=` separator. -/
def sep80 : String := String.mk (List.replicate 80 '=')

/-- The 40-character `-` separator. -/
def sep40 : String := String.mk (List.replicate 40 '-')

/-- The list of log lines built by `format_log_entry` (lines 112-140 of
`server.py`): preamble, per-event blocks, closing separator and a final
empty line. -/
def formatLines (entry : LogEntry) : Except Unit (List String) := do
  let evs ← pyIter entry.events
  let blocks ← eventBlocks 1 evs
  pure ([sep80,
         "BATCH_TIMESTAMP: " ++ entry.timestamp,
         "SESSION_ID: " ++ pyStr entry.sessionId,
         "USER_ID: " ++ pyStr entry.userId,
         "TOTAL_EVENTS: " ++ toString evs.length,
         sep40] ++ blocks ++ [sep80, ""])

/-- Newline join, modelling the join method of the newline string. -/
def joinLines : List String → String
  | [] => ""
  | [l] => l
  | l :: l2 :: ls => l ++ "\n" ++ joinLines (l2 :: ls)

/-- Model of `format_log_entry` (lines 104-142): the formatted text block, or a
raised exception. -/
def format_log_entry (entry : LogEntry) : Except Unit String :=
  (formatLines entry).map joinLines

/-- Model of `save_tracking_data` (lines 87-102): formats the entry and
appends the text plus a trailing newline to the log file.  The whole body is wrapped in a
`try/except` that swallows every exception, so a formatting error or a
failed write (`writeOk = false`) never escapes.  The result is the text
appended to the log file, if any. -/
def save_tracking_data (writeOk : Bool) (entry : LogEntry) : Option String :=
  match format_log_entry entry with
  | .ok txt => if writeOk then some (txt ++ "\n") else none
  | .error _ => none

/-- The dict-access effects of the console-print loop at lines 53-60 of
`do_POST` (`len(events)` and the per-event `get` calls); returns
`len(events)`, which line 68 interpolates into the success message. -/
def printLoop : List Json → Except Unit Unit
  | [] => .ok ()
  | e :: es => do
    let _ ← eventTypeOf e
    let _ ← eventDataOf e
    printLoop es

/-- The count `len(events)` plus the print loop: the computations of lines 53-60
and 68 that can still raise after `save_tracking_data` returned. -/
def printExc (entry : LogEntry) : Except Unit Nat := do
  let evs ← pyIter entry.events
  let _ ← printLoop evs
  pure evs.length

/-- Outcome of one `do_POST` call: either a response the handler itself
sent, or an exception that escaped the handler (no response from its own
error paths). -/
inductive HandlerResult where
  | response : Nat → String → HandlerResult
  | unhandled : HandlerResult
deriving DecidableEq

/-- The success body of line 68-69:
`json.dumps` of the status/message dict with a message of the form `Successfully logged N events`. -/
def successBody (n : Nat) : String :=
  "\x7b\"status\": \"success\", \"message\": \"Successfully logged "
    ++ toString n ++ " events\"\x7d"

/-- Processing of a successfully decoded payload (lines 24-75 of
`do_POST`): normalize, save (errors swallowed), console print (errors
caught by the outer `except Exception` → 500), else 200 with the success
body.  The second component is the text appended to the log file, if
any; `writeOk` tells whether the file append itself would succeed. -/
def handleParsed (now : String) (writeOk : Bool) (data : Json) :
    HandlerResult × Option String :=
  match normalize data with
  | .error _ => (.response 500 "Internal server error", none)
  | .ok n =>
    let entry : LogEntry := ⟨now, n.sessionId, n.userId, n.events⟩
    let written := save_tracking_data writeOk entry
    match printExc entry with
    | .error _ => (.response 500 "Internal server error", written)
    | .ok count => (.response 200 (successBody count), written)

/-- Whitespace characters stripped by Python `int(str)`. -/
def isPyWs (c : Char) : Bool :=
  c = ' ' || c = '\t' || c = '\n' || c = '\r' || c.toNat = 11 || c.toNat = 12

/-- Digit run with optional single underscores between digit groups, as
accepted by Python `int` after the first digit. -/
def digitTail : List Char → Bool
  | [] => true
  | ['_'] => false
  | '_' :: c :: cs => c.isDigit && digitTail cs
  | c :: cs => c.isDigit && digitTail cs

/-- Nonempty digit run (with embedded underscores) accepted by `int`. -/
def digitsOk : List Char → Bool
  | [] => false
  | c :: cs => c.isDigit && digitTail cs

/-- Numeric value of a digit run, ignoring underscores. -/
def digitsVal (cs : List Char) : Int :=
  cs.foldl (fun acc c => if c = '_' then acc else acc * 10 + (Int.ofNat c.toNat - 48)) 0

/-- Python `int(s)`: surrounding whitespace stripped, optional sign,
then a nonempty digit run; `none` when `int` would raise `ValueError`. -/
def pyIntParse (s : String) : Option Int :=
  let cs := ((s.data.dropWhile isPyWs).reverse.dropWhile isPyWs).reverse
  match cs with
  | '+' :: rest => if digitsOk rest then some (digitsVal rest) else none
  | '-' :: rest => if digitsOk rest then some (-(digitsVal rest)) else none
  | rest => if digitsOk rest then some (digitsVal rest) else none

/-- Model of the `Content-Length` conversion by `int` at line 18 of `server.py`:
a missing header yields `None`, and `int(None)` raises `TypeError`;
an unparsable header makes `int` raise `ValueError`. -/
def pyIntHeader : Option String → Except Unit Int
  | none => .error ()
  | some s =>
    match pyIntParse s with
    | some n => .ok n
    | none => .error ()

/-- Model of `do_POST` (lines 15-77 of `server.py`).  `contentLength` is the raw
`Content-Length` header; `decoded` is the result of `json.loads` on the
body (`none` = `JSONDecodeError`); `now` is the wall-clock timestamp;
`writeOk` tells whether the log-file append would succeed.  The
`Content-Length` conversion happens before the `try` block, so its
failure escapes the handler entirely. -/
def do_POST (path : String) (contentLength : Option String)
    (decoded : Option Json) (now : String) (writeOk : Bool) :
    HandlerResult × Option String :=
  if path = "/api/analytics/events" ∨ path = "/analytics" then
    match pyIntHeader contentLength with
    | .error _ => (.unhandled, none)
    | .ok _ =>
      match decoded with
      | none => (.response 400 "Invalid JSON", none)
      | some data => handleParsed now writeOk data
  else (.response 404 "Endpoint not found", none)

/-! ### Helper lemmas -/

theorem ebind_ok {α β : Type} (a : α) (f : α → Except Unit β) :
    (Except.ok a >>= f) = f a := rfl

theorem ebind_err {α β : Type} (f : α → Except Unit β) :
    ((Except.error () : Except Unit α) >>= f) = Except.error () := rfl

theorem epure {α : Type} (a : α) : (pure a : Except Unit α) = Except.ok a := rfl

theorem str_data_append (s t : String) : (s ++ t).data = s.data ++ t.data :=
  String.data_append s t

/-- Evaluation of `eventTypeOf` on a dict event: the truthy-or chain of line 122. -/
theorem eventTypeOf_obj (fs : List (String × Json)) :
    eventTypeOf (.obj fs) =
      .ok (if truthy ((lookupField fs "eventType").getD .null) = true
           then (lookupField fs "eventType").getD .null
           else (lookupField fs "type").getD (.str "unknown")) := by
  unfold eventTypeOf
  simp only [pyGet, ebind_ok]
  split <;> simp [pyGetD, epure]

/-- Evaluation of `eventDataOf` on a dict event: `data`, else `message`,
else the string `"no data"`. -/
theorem eventDataOf_obj (fs : List (String × Json)) :
    eventDataOf (.obj fs) =
      .ok ((lookupField fs "data").getD ((lookupField fs "message").getD (.str "no data"))) := by
  unfold eventDataOf
  simp [pyGetD, ebind_ok]

/-- Evaluation of `formatEvent` on a dict event: always succeeds, with the five field
lines and a blank line. -/
theorem formatEvent_obj (i : Nat) (fs : List (String × Json)) :
    formatEvent i (.obj fs) =
      .ok ["EVENT_" ++ toString i ++ ":",
           "  Type: " ++ pyStr (if truthy ((lookupField fs "eventType").getD .null) = true
                                then (lookupField fs "eventType").getD .null
                                else (lookupField fs "type").getD (.str "unknown")),
           "  Timestamp: " ++ pyStr ((lookupField fs "timestamp").getD (.str "unknown")),
           "  URL: " ++ pyStr ((lookupField fs "url").getD (.str "unknown")),
           "  Data: " ++ dataStr ((lookupField fs "data").getD
                                    ((lookupField fs "message").getD (.str "no data"))),
           ""] := by
  unfold formatEvent
  rw [eventTypeOf_obj, eventDataOf_obj]
  simp [pyGetD, ebind_ok, epure]

/-- Success of `formatEvent` forces the event to be a dict. -/
theorem formatEvent_ok_obj {i : Nat} {e : Json} {b : List String}
    (h : formatEvent i e = .ok b) : ∃ fs, e = .obj fs := by
  cases e with
  | obj fs => exact ⟨fs, rfl⟩
  | null => simp [formatEvent, eventTypeOf, pyGet, ebind_err] at h
  | bool v => simp [formatEvent, eventTypeOf, pyGet, ebind_err] at h
  | num n => simp [formatEvent, eventTypeOf, pyGet, ebind_err] at h
  | str s => simp [formatEvent, eventTypeOf, pyGet, ebind_err] at h
  | arr xs => simp [formatEvent, eventTypeOf, pyGet, ebind_err] at h

/-- The console print loop performs a subset of the dict accesses of the
formatter, so a formatted batch also prints without raising. -/
theorem printLoop_of_eventBlocks {k : Nat} {evs : List Json} {bs : List String}
    (h : eventBlocks k evs = .ok bs) : printLoop evs = .ok () := by
  induction evs generalizing k bs with
  | nil => rfl
  | cons e es ih =>
    unfold eventBlocks at h
    cases hfe : formatEvent k e with
    | error u => rw [hfe, ebind_err] at h; exact absurd h (by simp)
    | ok b =>
      rw [hfe, ebind_ok] at h
      cases hrest : eventBlocks (k + 1) es with
      | error u => rw [hrest, ebind_err] at h; exact absurd h (by simp)
      | ok rest =>
        obtain ⟨fs, rfl⟩ := formatEvent_ok_obj hfe
        unfold printLoop
        rw [eventTypeOf_obj, ebind_ok, eventDataOf_obj, ebind_ok]
        exact ih hrest

/-- Decomposition of a successful `formatLines` run. -/
theorem formatLines_shape {entry : LogEntry} {L : List String}
    (h : formatLines entry = .ok L) :
    ∃ evs blocks, pyIter entry.events = .ok evs ∧ eventBlocks 1 evs = .ok blocks ∧
      L = [sep80,
           "BATCH_TIMESTAMP: " ++ entry.timestamp,
           "SESSION_ID: " ++ pyStr entry.sessionId,
           "USER_ID: " ++ pyStr entry.userId,
           "TOTAL_EVENTS: " ++ toString evs.length,
           sep40] ++ blocks ++ [sep80, ""] := by
  unfold formatLines at h
  cases hi : pyIter entry.events with
  | error u => rw [hi, ebind_err] at h; exact absurd h (by simp)
  | ok evs =>
    rw [hi, ebind_ok] at h
    cases hb : eventBlocks 1 evs with
    | error u => rw [hb, ebind_err] at h; exact absurd h (by simp)
    | ok blocks =>
      rw [hb, ebind_ok] at h
      injection h with h
      exact ⟨evs, blocks, rfl, hb, h.symm⟩

/-- A successful format lets the console print stage succeed with the
same event count. -/
theorem printExc_of_format {entry : LogEntry} {evs : List Json} {txt : String}
    (hev : entry.events = .arr evs)
    (h : format_log_entry entry = .ok txt) :
    printExc entry = .ok evs.length := by
  unfold format_log_entry at h
  cases hfl : formatLines entry with
  | error u => rw [hfl] at h; exact absurd h (by simp [Except.map])
  | ok L =>
    obtain ⟨evs2, blocks, hi, hb, _⟩ := formatLines_shape hfl
    rw [hev] at hi
    injection hi with hi
    subst hi
    unfold printExc
    rw [hev]
    rw [show pyIter (Json.arr evs) = .ok evs from rfl, ebind_ok,
        printLoop_of_eventBlocks hb, ebind_ok]
    rfl

/-- A formatter-emitted line is an event section header exactly when it
starts with the six characters `EVENT_`. -/
def isEventHeader (l : String) : Bool :=
  decide (l.data.take 6 = "EVENT_".data)

theorem isEventHeader_append (p x : String) (h6 : 6 ≤ p.data.length) :
    isEventHeader (p ++ x) = isEventHeader p := by
  unfold isEventHeader
  rw [str_data_append, List.take_append_eq_append_take, Nat.sub_eq_zero_of_le h6]
  simp

theorem isEventHeader_header (i : Nat) :
    isEventHeader ("EVENT_" ++ toString i ++ ":") = true := by
  rw [String.append_assoc, isEventHeader_append "EVENT_" _ (by decide)]
  decide

theorem filter_formatEvent {i : Nat} {e : Json} {b : List String}
    (h : formatEvent i e = .ok b) :
    b.filter isEventHeader = ["EVENT_" ++ toString i ++ ":"] := by
  obtain ⟨fs, rfl⟩ := formatEvent_ok_obj h
  rw [formatEvent_obj] at h
  injection h with h
  subst h
  have h2 : ∀ x, isEventHeader ("  Type: " ++ x) = false := fun x => by
    rw [isEventHeader_append _ _ (by decide)]; decide
  have h3 : ∀ x, isEventHeader ("  Timestamp: " ++ x) = false := fun x => by
    rw [isEventHeader_append _ _ (by decide)]; decide
  have h4 : ∀ x, isEventHeader ("  URL: " ++ x) = false := fun x => by
    rw [isEventHeader_append _ _ (by decide)]; decide
  have h5 : ∀ x, isEventHeader ("  Data: " ++ x) = false := fun x => by
    rw [isEventHeader_append _ _ (by decide)]; decide
  simp [List.filter_cons, isEventHeader_header, h2, h3, h4, h5,
        show isEventHeader "" = false from by decide]

theorem eventBlocks_filter {evs : List Json} {k : Nat} {bs : List String}
    (h : eventBlocks k evs = .ok bs) :
    bs.filter isEventHeader =
      (List.range' k evs.length).map (fun i => "EVENT_" ++ toString i ++ ":") := by
  induction evs generalizing k bs with
  | nil =>
    simp only [eventBlocks] at h
    injection h with h
    subst h
    simp [List.range']
  | cons e es ih =>
    unfold eventBlocks at h
    cases hfe : formatEvent k e with
    | error u => rw [hfe, ebind_err] at h; exact absurd h (by simp)
    | ok b =>
      rw [hfe, ebind_ok] at h
      cases hrest : eventBlocks (k + 1) es with
      | error u => rw [hrest, ebind_err] at h; exact absurd h (by simp)
      | ok rest =>
        rw [hrest, ebind_ok] at h
        injection h with h
        subst h
        rw [List.filter_append, filter_formatEvent hfe, ih hrest]
        simp [List.range'_succ]

theorem joinLines_snoc_empty (a : String) (ls : List String) :
    joinLines (a :: (ls ++ [""])) = joinLines (a :: ls) ++ "\n" := by
  induction ls generalizing a with
  | nil => simp [joinLines, String.append_empty]
  | cons b bs ih =>
    simp only [List.cons_append, joinLines, List.append_eq]
    rw [ih]
    simp [String.append_assoc]

/-- The line of index `k` in a formatter result, `none` when the
formatter raised or emitted fewer lines. -/
def lineAt (k : Nat) : Except Unit (List String) → Option String
  | .ok L => L[k]?
  | .error _ => none

/-! ### Claims -/

/-- Claim C1: the normalizer applies its three rules in strict priority
order with first match winning — an `events` field forces the
batch-submission branch even when `type` is also present; otherwise a
`type` field yields the one-element batch with the literal
`test_session` / `test_user` ids; otherwise the one-element fallback
batch takes `sessionId` / `userId` from the payload, defaulting to
`"unknown"`. -/
theorem c1_normalizer_precedence (fs : List (String × Json)) :
    ((lookupField fs "events").isSome = true →
      normalize (.obj fs) = batchSubmission ((lookupField fs "events").getD (.arr []))) ∧
    (lookupField fs "events" = none → (lookupField fs "type").isSome = true →
      normalize (.obj fs) = .ok ⟨.str "test_session", .str "test_user", .arr [.obj fs]⟩) ∧
    (lookupField fs "events" = none → lookupField fs "type" = none →
      normalize (.obj fs) = .ok ⟨(lookupField fs "sessionId").getD (.str "unknown"),
                                 (lookupField fs "userId").getD (.str "unknown"),
                                 .arr [.obj fs]⟩) := by
  refine ⟨fun h => ?_, fun h1 h2 => ?_, fun h1 h2 => ?_⟩
  · unfold normalize batchSubmission
    simp only [pyContains, ebind_ok, h, if_true, pyGetD, epure]
  · unfold normalize
    simp [pyContains, ebind_ok, h1, h2, epure]
  · unfold normalize
    simp [pyContains, ebind_ok, h1, h2, pyGetD, epure]

/-- Witness for C1 at payloads exercising all three branches; the first
payload carries both `events` and `type` and still takes the batch
branch. -/
theorem c1_witness :
    normalize (.obj [("events", .arr [.obj [("sessionId", .str "S")]]), ("type", .str "t")])
      = batchSubmission (.arr [.obj [("sessionId", .str "S")]]) ∧
    normalize (.obj [("type", .str "click")])
      = .ok ⟨.str "test_session", .str "test_user", .arr [.obj [("type", .str "click")]]⟩ ∧
    normalize (.obj [("foo", .str "bar")])
      = .ok ⟨.str "unknown", .str "unknown", .arr [.obj [("foo", .str "bar")]]⟩ :=
  ⟨(c1_normalizer_precedence _).1 rfl,
   (c1_normalizer_precedence _).2.1 rfl rfl,
   (c1_normalizer_precedence _).2.2 rfl rfl⟩

/-- Claim C5: an unparsable request body on the analytics POST routes
(decode yields no JSON value) produces HTTP 400 and nothing is appended
to the tracking log. -/
theorem c5_unparsable_body_400 (path : String) (cl : Option String) (m : Int)
    (now : String) (writeOk : Bool)
    (hpath : path = "/api/analytics/events" ∨ path = "/analytics")
    (hcl : pyIntHeader cl = .ok m) :
    do_POST path cl none now writeOk = (.response 400 "Invalid JSON", none) := by
  unfold do_POST
  rw [if_pos hpath, hcl]

/-- Witness for C5. -/
theorem c5_witness :
    do_POST "/analytics" (some "17") none "t" true =
      (.response 400 "Invalid JSON", none) :=
  c5_unparsable_body_400 "/analytics" (some "17") 17 "t" true (Or.inr rfl) rfl

/-- Claim C7: the `Data:` line of every rendered dict event shows the
field `data` of the event, falling back to `message`, else the string
`"no data"`; a dict value is pretty-printed with `json.dumps(·, indent=6)`
and any other value is shown via its direct string conversion. -/
theorem c7_data_line (fs : List (String × Json)) (i : Nat) :
    lineAt 4 (formatEvent i (.obj fs)) =
      some ("  Data: " ++
        (if isDict ((lookupField fs "data").getD ((lookupField fs "message").getD (.str "no data")))
         then jsonDumps6 ((lookupField fs "data").getD ((lookupField fs "message").getD (.str "no data")))
         else pyStr ((lookupField fs "data").getD ((lookupField fs "message").getD (.str "no data"))))) := by
  rw [formatEvent_obj]
  simp [lineAt, dataStr]

/-- Claim C9: a missing or unparsable `Content-Length` header makes the
`int` conversion at line 18 raise before the `try` block is entered, so
the handler produces neither its 400 nor its 500 response and writes no
log entry. -/
theorem c9_bad_content_length_unhandled (path : String) (cl : Option String)
    (decoded : Option Json) (now : String) (writeOk : Bool)
    (hpath : path = "/api/analytics/events" ∨ path = "/analytics")
    (hcl : cl = none ∨ ∃ s, cl = some s ∧ pyIntParse s = none) :
    do_POST path cl decoded now writeOk = (.unhandled, none) := by
  unfold do_POST
  rw [if_pos hpath]
  rcases hcl with h | ⟨s, rfl, hp⟩
  · rw [h]
    rfl
  · have he : pyIntHeader (some s) = .error () := by
      simp only [pyIntHeader]
      rw [hp]
    rw [he]

theorem append_nl_ne_empty (s : String) : s ++ "\n" ≠ "" := by
  intro h
  have h2 := congrArg String.data h
  rw [str_data_append] at h2
  have h3 : s.data ++ [Char.ofNat 10] = ([] : List Char) := h2
  simp at h3

theorem getLast_append_nl (s : String) : (s ++ "\n").data.getLast? = some '\n' := by
  rw [str_data_append]
  exact List.getLast?_concat s.data

/-- Claim C3: a formatted batch of `N` events carries the line
`TOTAL_EVENTS: N` and exactly `N` event section headers
`EVENT_1:` … `EVENT_N:` in input order. -/
theorem c3_total_events_and_headers (entry : LogEntry) (evs : List Json) (L : List String)
    (hev : entry.events = .arr evs)
    (hfmt : formatLines entry = .ok L) :
    ("TOTAL_EVENTS: " ++ toString evs.length) ∈ L ∧
    L.filter isEventHeader =
      (List.range' 1 evs.length).map (fun i => "EVENT_" ++ toString i ++ ":") := by
  obtain ⟨evs2, blocks, hi, hb, hL⟩ := formatLines_shape hfmt
  rw [hev] at hi
  have hevs : evs = evs2 := by injection hi
  subst hevs
  subst hL
  have hB : ∀ x, isEventHeader ("BATCH_TIMESTAMP: " ++ x) = false := fun x => by
    rw [isEventHeader_append _ _ (by decide)]; decide
  have hS : ∀ x, isEventHeader ("SESSION_ID: " ++ x) = false := fun x => by
    rw [isEventHeader_append _ _ (by decide)]; decide
  have hU : ∀ x, isEventHeader ("USER_ID: " ++ x) = false := fun x => by
    rw [isEventHeader_append _ _ (by decide)]; decide
  have hT : ∀ x, isEventHeader ("TOTAL_EVENTS: " ++ x) = false := fun x => by
    rw [isEventHeader_append _ _ (by decide)]; decide
  constructor
  · simp
  · rw [List.filter_append, List.filter_append, eventBlocks_filter hb]
    simp [List.filter_cons, hB, hS, hU, hT,
          show isEventHeader sep80 = false from by decide,
          show isEventHeader sep40 = false from by decide,
          show isEventHeader "" = false from by decide]

/-- Witness for C3: a one-event batch. -/
theorem c3_witness :
    ("TOTAL_EVENTS: " ++ toString [Json.obj []].length) ∈
      [sep80, "BATCH_TIMESTAMP: t", "SESSION_ID: s", "USER_ID: u",
       "TOTAL_EVENTS: 1", sep40, "EVENT_1:", "  Type: unknown",
       "  Timestamp: unknown", "  URL: unknown", "  Data: no data", "",
       sep80, ""] ∧
    List.filter isEventHeader
      [sep80, "BATCH_TIMESTAMP: t", "SESSION_ID: s", "USER_ID: u",
       "TOTAL_EVENTS: 1", sep40, "EVENT_1:", "  Type: unknown",
       "  Timestamp: unknown", "  URL: unknown", "  Data: no data", "",
       sep80, ""] =
      (List.range' 1 [Json.obj []].length).map (fun i => "EVENT_" ++ toString i ++ ":") :=
  c3_total_events_and_headers ⟨"t", .str "s", .str "u", .arr [.obj []]⟩ [.obj []]
    [sep80, "BATCH_TIMESTAMP: t", "SESSION_ID: s", "USER_ID: u",
     "TOTAL_EVENTS: 1", sep40, "EVENT_1:", "  Type: unknown",
     "  Timestamp: unknown", "  URL: unknown", "  Data: no data", "",
     sep80, ""] rfl rfl

/-- Claim C8: the formatter is deterministic, its output is never empty,
and the output ends in a newline, i.e. is terminated by a trailing blank
line. -/
theorem c8_formatter_deterministic (entry : LogEntry) (txt : String)
    (h : format_log_entry entry = .ok txt) :
    txt ≠ "" ∧ txt.data.getLast? = some '\n' ∧
    format_log_entry entry = format_log_entry entry := by
  unfold format_log_entry at h
  cases hfl : formatLines entry with
  | error u => rw [hfl] at h; exact absurd h (by simp [Except.map])
  | ok L =>
    rw [hfl] at h
    injection h with h
    obtain ⟨evs, blocks, hi, hb, hL⟩ := formatLines_shape hfl
    have hsh : L = sep80 ::
        ((["BATCH_TIMESTAMP: " ++ entry.timestamp,
           "SESSION_ID: " ++ pyStr entry.sessionId,
           "USER_ID: " ++ pyStr entry.userId,
           "TOTAL_EVENTS: " ++ toString evs.length,
           sep40] ++ blocks ++ [sep80]) ++ [""]) := by
      rw [hL]; simp
    have hj : joinLines L =
        joinLines (sep80 ::
          (["BATCH_TIMESTAMP: " ++ entry.timestamp,
            "SESSION_ID: " ++ pyStr entry.sessionId,
            "USER_ID: " ++ pyStr entry.userId,
            "TOTAL_EVENTS: " ++ toString evs.length,
            sep40] ++ blocks ++ [sep80])) ++ "\n" := by
      rw [hsh, joinLines_snoc_empty]
    rw [← h, hj]
    exact ⟨append_nl_ne_empty _, getLast_append_nl _, rfl⟩

/-- Witness for C8: the empty batch. -/
theorem c8_witness :
    joinLines [sep80, "BATCH_TIMESTAMP: t", "SESSION_ID: s", "USER_ID: u",
               "TOTAL_EVENTS: 0", sep40, sep80, ""] ≠ "" ∧
    (joinLines [sep80, "BATCH_TIMESTAMP: t", "SESSION_ID: s", "USER_ID: u",
                "TOTAL_EVENTS: 0", sep40, sep80, ""]).data.getLast? = some '\n' ∧
    format_log_entry ⟨"t", .str "s", .str "u", .arr []⟩ =
      format_log_entry ⟨"t", .str "s", .str "u", .arr []⟩ :=
  c8_formatter_deterministic ⟨"t", .str "s", .str "u", .arr []⟩
    (joinLines [sep80, "BATCH_TIMESTAMP: t", "SESSION_ID: s", "USER_ID: u",
                "TOTAL_EVENTS: 0", sep40, sep80, ""]) rfl

/-- Claim C10: a batch submission whose non-empty `events` sequence has a
first element lacking `sessionId` (respectively `userId`) yields a batch
id of `None` — rendered in the log as `SESSION_ID: None` /
`USER_ID: None` — not the string `"unknown"`. -/
theorem c10_missing_ids_none (fs efs : List (String × Json)) (rest : List Json)
    (hev : lookupField fs "events" = some (.arr (.obj efs :: rest))) :
    (lookupField efs "sessionId" = none →
      normalize (.obj fs) =
        .ok ⟨.null, (lookupField efs "userId").getD .null, .arr (.obj efs :: rest)⟩ ∧
      "SESSION_ID: " ++ pyStr Json.null = "SESSION_ID: None" ∧
      Json.null ≠ Json.str "unknown" ∧
      (∀ now L, formatLines ⟨now, .null, (lookupField efs "userId").getD .null,
                             .arr (.obj efs :: rest)⟩ = .ok L →
        "SESSION_ID: None" ∈ L)) ∧
    (lookupField efs "userId" = none →
      normalize (.obj fs) =
        .ok ⟨(lookupField efs "sessionId").getD .null, .null, .arr (.obj efs :: rest)⟩ ∧
      "USER_ID: " ++ pyStr Json.null = "USER_ID: None" ∧
      Json.null ≠ Json.str "unknown" ∧
      (∀ now L, formatLines ⟨now, (lookupField efs "sessionId").getD .null, .null,
                             .arr (.obj efs :: rest)⟩ = .ok L →
        "USER_ID: None" ∈ L)) := by
  have hnorm : normalize (.obj fs) =
      .ok ⟨(lookupField efs "sessionId").getD .null,
           (lookupField efs "userId").getD .null,
           .arr (.obj efs :: rest)⟩ := by
    unfold normalize
    simp [pyContains, hev, pyGetD, pyIndex0, pyGet, truthy, ebind_ok, epure]
  constructor
  · intro hsid
    rw [hsid] at hnorm
    refine ⟨hnorm, rfl, fun h => Json.noConfusion h, fun now L hfmtL => ?_⟩
    obtain ⟨evs, blocks, hi, hb, hL⟩ := formatLines_shape hfmtL
    subst hL
    exact List.mem_append_left _ (List.mem_append_left _ (.tail _ (.tail _ (.head _))))
  · intro huid
    rw [huid] at hnorm
    refine ⟨hnorm, rfl, fun h => Json.noConfusion h, fun now L hfmtL => ?_⟩
    obtain ⟨evs, blocks, hi, hb, hL⟩ := formatLines_shape hfmtL
    subst hL
    exact List.mem_append_left _
      (List.mem_append_left _ (.tail _ (.tail _ (.tail _ (.head _)))))

/-- Witness for C10: `{"events": [{}]}`. -/
theorem c10_witness :
    normalize (.obj [("events", .arr [.obj []])]) =
      .ok ⟨.null, .null, .arr [.obj []]⟩ ∧
    "SESSION_ID: None" ∈
      [sep80, "BATCH_TIMESTAMP: t", "SESSION_ID: None", "USER_ID: None",
       "TOTAL_EVENTS: 1", sep40, "EVENT_1:", "  Type: unknown",
       "  Timestamp: unknown", "  URL: unknown", "  Data: no data", "",
       sep80, ""] ∧
    "USER_ID: None" ∈
      [sep80, "BATCH_TIMESTAMP: t", "SESSION_ID: None", "USER_ID: None",
       "TOTAL_EVENTS: 1", sep40, "EVENT_1:", "  Type: unknown",
       "  Timestamp: unknown", "  URL: unknown", "  Data: no data", "",
       sep80, ""] :=
  ⟨((c10_missing_ids_none [("events", .arr [.obj []])] [] [] rfl).1 rfl).1,
   ((c10_missing_ids_none [("events", .arr [.obj []])] [] [] rfl).1 rfl).2.2.2 "t"
     [sep80, "BATCH_TIMESTAMP: t", "SESSION_ID: None", "USER_ID: None",
      "TOTAL_EVENTS: 1", sep40, "EVENT_1:", "  Type: unknown",
      "  Timestamp: unknown", "  URL: unknown", "  Data: no data", "",
      sep80, ""] rfl,
   ((c10_missing_ids_none [("events", .arr [.obj []])] [] [] rfl).2 rfl).2.2.2 "t"
     [sep80, "BATCH_TIMESTAMP: t", "SESSION_ID: None", "USER_ID: None",
      "TOTAL_EVENTS: 1", sep40, "EVENT_1:", "  Type: unknown",
      "  Timestamp: unknown", "  URL: unknown", "  Data: no data", "",
      sep80, ""] rfl⟩

/-- Claim C4: when normalization and formatting succeed but the file
append fails (`writeOk = false`), the persistence error is swallowed and
the response is still HTTP 200 with the success JSON body. -/
theorem c4_write_failure_still_success (now : String) (data : Json) (n : NormOut)
    (evs : List Json) (txt : String)
    (h1 : normalize data = .ok n)
    (hev : n.events = .arr evs)
    (h2 : format_log_entry ⟨now, n.sessionId, n.userId, n.events⟩ = .ok txt) :
    handleParsed now false data = (.response 200 (successBody evs.length), none) := by
  have hp : printExc ⟨now, n.sessionId, n.userId, n.events⟩ = .ok evs.length :=
    printExc_of_format hev h2
  simp only [handleParsed, h1, hp, save_tracking_data, h2]
  simp

/-- Witness for C4: `{"type": "x"}` with a failing write. -/
theorem c4_witness :
    handleParsed "t" false (.obj [("type", .str "x")]) =
      (.response 200 (successBody 1), none) :=
  c4_write_failure_still_success "t" (.obj [("type", .str "x")])
    ⟨.str "test_session", .str "test_user", .arr [.obj [("type", .str "x")]]⟩
    [.obj [("type", .str "x")]] _ rfl rfl rfl

/-- Counterexample for C6: in the event
`{"eventType": "", "type": "click"}` both fields are present, yet the
rendered `Type:` line shows the `type` value, not the `eventType` value
`""` that the claim predicts — Python `or` skips a falsy left operand. -/
theorem c6_counterexample :
    lineAt 1 (formatEvent 1 (.obj [("eventType", .str ""), ("type", .str "click")])) =
      some "  Type: click" ∧
    ("  Type: click" : String) ≠ "  Type: " :=
  ⟨rfl, by decide⟩

/-- Claim C6 (amended): the rendered `Type:` value is the field
`eventType` of the event when present with a truthy value; otherwise the
`type` field when present; otherwise the literal string `"unknown"`. -/
theorem c6_type_line_amended (fs : List (String × Json)) (i : Nat) :
    (∀ v, lookupField fs "eventType" = some v → truthy v = true →
      lineAt 1 (formatEvent i (.obj fs)) = some ("  Type: " ++ pyStr v)) ∧
    (∀ v, (lookupField fs "eventType" = none ∨
           ∃ w, lookupField fs "eventType" = some w ∧ truthy w = false) →
      lookupField fs "type" = some v →
      lineAt 1 (formatEvent i (.obj fs)) = some ("  Type: " ++ pyStr v)) ∧
    ((lookupField fs "eventType" = none ∨
      ∃ w, lookupField fs "eventType" = some w ∧ truthy w = false) →
      lookupField fs "type" = none →
      lineAt 1 (formatEvent i (.obj fs)) = some "  Type: unknown") := by
  refine ⟨fun v hv ht => ?_, fun v hw hv => ?_, fun hw hv => ?_⟩
  · rw [formatEvent_obj]
    simp [lineAt, hv, ht]
  · rcases hw with hw | ⟨w, hw, hwf⟩
    · rw [formatEvent_obj]
      simp [lineAt, hw, hv, truthy]
    · rw [formatEvent_obj]
      simp [lineAt, hw, hwf, hv]
  · rcases hw with hw | ⟨w, hw, hwf⟩
    · rw [formatEvent_obj]
      simp [lineAt, hw, hv, truthy, pyStr, pyRepr]
    · rw [formatEvent_obj]
      simp [lineAt, hw, hwf, hv, pyStr, pyRepr]

/-- Witness for C6: truthy `eventType`, falsy `eventType` with `type`,
and neither field. -/
theorem c6_witness :
    lineAt 1 (formatEvent 1 (.obj [("eventType", .str "E"), ("type", .str "t")])) =
      some ("  Type: " ++ pyStr (.str "E")) ∧
    lineAt 1 (formatEvent 1 (.obj [("eventType", .str ""), ("type", .str "t")])) =
      some ("  Type: " ++ pyStr (.str "t")) ∧
    lineAt 1 (formatEvent 1 (.obj [("x", .num 1)])) = some "  Type: unknown" :=
  ⟨(c6_type_line_amended _ 1).1 (.str "E") rfl rfl,
   (c6_type_line_amended _ 1).2.1 (.str "t") (Or.inr ⟨.str "", rfl, rfl⟩) rfl,
   (c6_type_line_amended _ 1).2.2 (Or.inl rfl) rfl⟩

/-- On a non-dict payload the normalizer either raises (dict `get` on a
non-dict) or, when Python `in` finds `"type"` but not `"events"`, takes
the single-test-event branch with the payload itself as the only
event. -/
theorem normalize_nonobj (data : Json) (hobj : isDict data = false) :
    normalize data = .error () ∨
    normalize data = .ok ⟨.str "test_session", .str "test_user", .arr [data]⟩ := by
  cases data with
  | obj fs => simp [isDict] at hobj
  | null => left; rfl
  | bool b => left; rfl
  | num n => left; rfl
  | str s =>
    unfold normalize
    simp only [pyContains, ebind_ok]
    cases h1 : strContains "events" s with
    | true => left; simp [h1, pyGetD, ebind_err]
    | false =>
      cases h2 : strContains "type" s with
      | true => right; simp [h1, h2, epure]
      | false => left; simp [h1, h2, pyGetD, ebind_err]
  | arr xs =>
    unfold normalize
    simp only [pyContains, ebind_ok]
    cases h1 : xs.any fun x => match x with | Json.str s => s == "events" | _ => false with
    | true => left; simp [h1, pyGetD, ebind_err]
    | false =>
      cases h2 : xs.any fun x => match x with | Json.str s => s == "type" | _ => false with
      | true => right; simp [h1, h2, epure]
      | false => left; simp [h1, h2, pyGetD, ebind_err]

theorem eventTypeOf_nonobj (data : Json) (hobj : isDict data = false) :
    eventTypeOf data = .error () := by
  cases data with
  | obj fs => simp [isDict] at hobj
  | null => rfl
  | bool b => rfl
  | num n => rfl
  | str s => rfl
  | arr xs => rfl

/-- Every path of `handleParsed` on a non-dict payload ends in the
generic `except Exception` handler: HTTP 500, nothing logged. -/
theorem handleParsed_nonobj (now : String) (writeOk : Bool) (data : Json)
    (hobj : isDict data = false) :
    handleParsed now writeOk data = (.response 500 "Internal server error", none) := by
  rcases normalize_nonobj data hobj with h | h
  · unfold handleParsed
    rw [h]
  · have hfe := eventTypeOf_nonobj data hobj
    have hpl : printLoop [data] = .error () := by
      unfold printLoop
      rw [hfe, ebind_err]
    have hp : printExc ⟨now, .str "test_session", .str "test_user", .arr [data]⟩ =
        .error () := by
      unfold printExc
      rw [show pyIter (Json.arr [data]) = .ok [data] from rfl, ebind_ok, hpl, ebind_err]
    have hfb : formatEvent 1 data = .error () := by
      unfold formatEvent
      rw [hfe, ebind_err]
    have hbl : eventBlocks 1 [data] = .error () := by
      unfold eventBlocks
      rw [hfb, ebind_err]
    have hfl : formatLines ⟨now, .str "test_session", .str "test_user", .arr [data]⟩ =
        .error () := by
      unfold formatLines
      rw [show pyIter (Json.arr [data]) = .ok [data] from rfl, ebind_ok, hbl, ebind_err]
    have hs : save_tracking_data writeOk
        ⟨now, .str "test_session", .str "test_user", .arr [data]⟩ = none := by
      unfold save_tracking_data format_log_entry
      rw [hfl]
      rfl
    simp only [handleParsed, h, hp, hs]

/-- Counterexample for C2: the decoded body `[]` is valid JSON but not a
JSON object; the claim predicts MalformedPayload / HTTP 400, but the
handler answers HTTP 500 (the fallback branch calls `.get` on a list). -/
theorem c2_counterexample :
    do_POST "/analytics" (some "2") (some (.arr [])) "t" true =
      (.response 500 "Internal server error", none) ∧
    (HandlerResult.response 500 "Internal server error") ≠
      .response 400 "Invalid JSON" :=
  ⟨rfl, by decide⟩

/-- Claim C2 (amended): a decoded request body that is valid JSON but
not a JSON object makes the handler raise while processing (dict
operations on a non-dict), which surfaces as HTTP 500 — not 400 — and no
tracking-log entry is produced. -/
theorem c2_nonobject_500 (path : String) (cl : Option String) (m : Int)
    (data : Json) (now : String) (writeOk : Bool)
    (hpath : path = "/api/analytics/events" ∨ path = "/analytics")
    (hcl : pyIntHeader cl = .ok m)
    (hobj : isDict data = false) :
    do_POST path cl (some data) now writeOk =
      (.response 500 "Internal server error", none) := by
  unfold do_POST
  rw [if_pos hpath, hcl]
  exact handleParsed_nonobj now writeOk data hobj

/-- Witness for C2 (amended): a JSON string body. -/
theorem c2_witness :
    do_POST "/analytics" (some "2") (some (.str "hello")) "t" true =
      (.response 500 "Internal server error", none) :=
  c2_nonobject_500 "/analytics" (some "2") 2 (.str "hello") "t" true
    (Or.inr rfl) rfl rfl

/-- Witness for C9: absent header and a non-numeric header. -/
theorem c9_witness :
    do_POST "/analytics" none (some (.obj [])) "t" true = (.unhandled, none) ∧
    do_POST "/api/analytics/events" (some "abc") (some (.obj [])) "t" true =
      (.unhandled, none) :=
  ⟨c9_bad_content_length_unhandled "/analytics" none (some (.obj [])) "t" true
     (Or.inr rfl) (Or.inl rfl),
   c9_bad_content_length_unhandled "/api/analytics/events" (some "abc") (some (.obj [])) "t" true
     (Or.inl rfl) (Or.inr ⟨"abc", rfl, rfl⟩)⟩

end Tracking
